import Mathlib

/-!
Shallow embedding of `src/app.py` (a small Flask content-management app:
public blog, contact form, password-authenticated admin area backed by
PostgreSQL).  Request handlers become pure functions from a database state,
a session state and the submitted form to a handler result; the database is
a record of row lists; SQL statements become list operations mirroring the
executed statement.  Library code that is not part of the repository
(werkzeug password hashing, flask-login's access control) is modelled from
the specification, and each such definition says so in its doc comment.
-/

namespace App

/-! ## Python `str.strip()` -/

/-- Whitespace characters removed by Python's `str.strip()`:
space, tab, newline, carriage return, vertical tab, form feed. -/
def isPySpace (c : Char) : Bool :=
  c = ' ' || c = '\t' || c = '\n' || c = '\x0d' || c = '\x0b' || c = '\x0c'

/-- Strip leading whitespace from a character list. -/
def lstripChars (l : List Char) : List Char :=
  l.dropWhile isPySpace

/-- Strip trailing whitespace from a character list. -/
def rstripChars (l : List Char) : List Char :=
  (l.reverse.dropWhile isPySpace).reverse

/-- Strip leading and trailing whitespace, as Python's `str.strip()`. -/
def stripChars (l : List Char) : List Char :=
  rstripChars (lstripChars l)

/-- Model of Python's `str.strip()` on strings. -/
def pyStrip (s : String) : String :=
  String.mk (stripChars s.data)

/-- Predicate: the list does not start with a whitespace character. -/
def noLeadSpace : List Char → Prop
  | [] => True
  | c :: _ => ¬ isPySpace c = true

theorem dropWhile_suffix_decomp (p : Char → Bool) (l : List Char) :
    ∃ s, l = s ++ l.dropWhile p := by
  induction l with
  | nil => exact ⟨[], rfl⟩
  | cons c t ih =>
    by_cases h : p c = true
    · obtain ⟨s, hs⟩ := ih
      refine ⟨c :: s, ?_⟩
      simp [List.dropWhile, h]
      exact hs
    · exact ⟨[], by simp [List.dropWhile, h]⟩

theorem noLeadSpace_dropWhile (l : List Char) :
    noLeadSpace (l.dropWhile isPySpace) := by
  induction l with
  | nil => trivial
  | cons c t ih =>
    by_cases h : isPySpace c = true
    · simpa [List.dropWhile, h] using ih
    · have hf : isPySpace c = false := by simpa using h
      simp [List.dropWhile, hf, noLeadSpace, h]

theorem dropWhile_eq_self_of_noLead (l : List Char) (h : noLeadSpace l) :
    l.dropWhile isPySpace = l := by
  cases l with
  | nil => rfl
  | cons c t =>
    simp only [noLeadSpace] at h
    simp [List.dropWhile, h]

theorem noLeadSpace_rstrip (l : List Char) (h : noLeadSpace l) :
    noLeadSpace (rstripChars l) := by
  obtain ⟨s, hs⟩ := dropWhile_suffix_decomp isPySpace l.reverse
  have hl : l = (rstripChars l) ++ s.reverse := by
    have := congrArg List.reverse hs
    simpa [rstripChars] using this
  cases hr : rstripChars l with
  | nil => trivial
  | cons c t =>
    rw [hr] at hl
    cases l with
    | nil => simp at hl
    | cons c' t' =>
      simp only [List.cons_append, List.cons.injEq] at hl
      simp only [noLeadSpace] at h ⊢
      exact hl.1 ▸ h

theorem noLeadSpace_reverse_rstrip (l : List Char) :
    noLeadSpace (rstripChars l).reverse := by
  have : (rstripChars l).reverse = l.reverse.dropWhile isPySpace := by
    simp [rstripChars]
  rw [this]
  exact noLeadSpace_dropWhile l.reverse

theorem rstrip_eq_self_of_noTrail (l : List Char) (h : noLeadSpace l.reverse) :
    rstripChars l = l := by
  unfold rstripChars
  rw [dropWhile_eq_self_of_noLead l.reverse h, List.reverse_reverse]

/-- Python's `strip` is idempotent. -/
theorem stripChars_idem (l : List Char) :
    stripChars (stripChars l) = stripChars l := by
  unfold stripChars
  have h1 : noLeadSpace (lstripChars l) := noLeadSpace_dropWhile l
  have h2 : noLeadSpace (rstripChars (lstripChars l)) :=
    noLeadSpace_rstrip _ h1
  rw [show lstripChars (rstripChars (lstripChars l)) = rstripChars (lstripChars l) from
        dropWhile_eq_self_of_noLead _ h2]
  exact rstrip_eq_self_of_noTrail _ (noLeadSpace_reverse_rstrip _)

/-- Model of `str.strip` at the string level is idempotent. -/
theorem pyStrip_idem (s : String) : pyStrip (pyStrip s) = pyStrip s := by
  unfold pyStrip
  exact congrArg String.mk (stripChars_idem s.data)

/-! ## Data model: the three tables of `init_db` -/

/-- Row of the `users` table. -/
structure UserRow where
  id : Nat
  username : String
  password_hash : String
  created_at : Nat
deriving DecidableEq, Repr

/-- Row of the `blog_posts` table. -/
structure BlogPostRow where
  id : Nat
  title : String
  slug : String
  body : String
  tags : String
  created_at : Nat
  updated_at : Nat
deriving DecidableEq, Repr

/-- Row of the `contact_messages` table. -/
structure ContactMessageRow where
  id : Nat
  name : String
  email : String
  message : String
  created_at : Nat
deriving DecidableEq, Repr

/-- Database state: the three tables, the next SERIAL id, and the value of
CURRENT_TIMESTAMP for rows inserted now. -/
structure DB where
  users : List UserRow
  blog_posts : List BlogPostRow
  contact_messages : List ContactMessageRow
  next_id : Nat
  now : Nat
deriving DecidableEq, Repr

/-- Session state of flask-login: Anonymous, or Authenticated bound to a
user id. -/
inductive Session where
  | anonymous
  | authenticated (user_id : Nat)
deriving DecidableEq, Repr

/-- Flash message category plus text, as produced by `flash(msg, category)`. -/
inductive Flash where
  | success (msg : String)
  | danger (msg : String)
deriving DecidableEq, Repr

/-- Response of a handler: a rendered template together with the data passed
to it, or a redirect to a path. -/
inductive Response where
  | render (tmpl : String) (posts : List BlogPostRow)
      (messages : List ContactMessageRow) (counts : List Nat)
  | redirect (target : String)
deriving DecidableEq, Repr

/-- Result of running one request handler: the database afterwards, the
flash messages emitted, the response, and the session afterwards. -/
structure HandlerResult where
  db : DB
  flashes : List Flash
  response : Response
  session : Session
deriving DecidableEq, Repr

/-! ## Credential hashing (library code, not in the repository) -/

/-- Salt-and-method tag prepended by the modelled hash. -/
def hashTagChars : List Char := "pbkdf2-sha256-salted$".data

/-- Modelled from the spec: werkzeug's `generate_password_hash`, a salted
one-way hash whose output determines the plaintext only through
`check_password_hash`; modelled as an injective encoding that is never equal
to any of its own outputs' preimages. -/
def generate_password_hash (p : String) : String :=
  String.mk (hashTagChars ++ p.data)

/-- Modelled from the spec: werkzeug's `check_password_hash` returns true
exactly when the plaintext is the one the stored hash was generated from. -/
def check_password_hash (h p : String) : Bool :=
  h == generate_password_hash p

/-! ## AUTH: `User` lookups (each runs one parameterized SELECT) -/

/-- Embeds `User.get_by_username`: `SELECT * FROM users WHERE username = %s`
followed by `fetchone`. -/
def User.get_by_username (db : DB) (username : String) : Option UserRow :=
  db.users.find? (fun u => u.username == username)

/-- Embeds `User.get_by_id`: `SELECT * FROM users WHERE id = %s` followed by
`fetchone`. -/
def User.get_by_id (db : DB) (user_id : Nat) : Option UserRow :=
  db.users.find? (fun u => u.id == user_id)

/-! ## Persistence operations on blog posts and contact messages -/

/-- Typed store failure: the unique-constraint violation raised by
PostgreSQL and caught as `psycopg2.errors.UniqueViolation`. -/
inductive DBError where
  | uniqueViolation
deriving DecidableEq, Repr

/-- Embeds `INSERT INTO blog_posts (title, slug, body, tags) VALUES (...)`:
the UNIQUE constraint on `slug` raises `UniqueViolation` when the slug is
already present; otherwise the row is appended with a generated id and
server-set timestamps. -/
def insert_blog_post (db : DB) (title slug body tags : String) :
    Except DBError DB :=
  if db.blog_posts.any (fun p => p.slug == slug) then
    Except.error DBError.uniqueViolation
  else
    Except.ok
      { db with
        blog_posts := db.blog_posts ++
          [⟨db.next_id, title, slug, body, tags, db.now, db.now⟩],
        next_id := db.next_id + 1 }

/-- Embeds `DELETE FROM blog_posts WHERE id = %s`. -/
def delete_blog_post (db : DB) (post_id : Nat) : DB :=
  { db with blog_posts := db.blog_posts.filter (fun p => p.id != post_id) }

/-- Embeds `INSERT INTO contact_messages (name, email, message) VALUES (...)`. -/
def insert_contact_message (db : DB) (name email message : String) : DB :=
  { db with
    contact_messages := db.contact_messages ++
      [⟨db.next_id, name, email, message, db.now⟩],
    next_id := db.next_id + 1 }

/-- Embeds `SELECT * FROM blog_posts WHERE slug = %s` with `fetchone`. -/
def get_post_by_slug (db : DB) (slug : String) : Option BlogPostRow :=
  db.blog_posts.find? (fun p => p.slug == slug)

/-- Newest-first order used by `ORDER BY created_at DESC`. -/
def createdDesc (a b : BlogPostRow) : Prop :=
  b.created_at ≤ a.created_at

instance : DecidableRel createdDesc :=
  fun a b => Nat.decLe b.created_at a.created_at

instance : IsTotal BlogPostRow createdDesc :=
  ⟨fun a b => Nat.le_total b.created_at a.created_at⟩

instance : IsTrans BlogPostRow createdDesc :=
  ⟨fun _ _ _ hab hbc => Nat.le_trans hbc hab⟩

/-- Result set of `SELECT * FROM blog_posts ORDER BY created_at DESC`. -/
def list_posts_desc (db : DB) : List BlogPostRow :=
  List.insertionSort createdDesc db.blog_posts

/-- Newest-first order on contact messages, for `admin_messages`. -/
def msgCreatedDesc (a b : ContactMessageRow) : Prop :=
  b.created_at ≤ a.created_at

instance : DecidableRel msgCreatedDesc :=
  fun a b => Nat.decLe b.created_at a.created_at

/-- Result set of `SELECT * FROM contact_messages ORDER BY created_at DESC`. -/
def list_messages_desc (db : DB) : List ContactMessageRow :=
  List.insertionSort msgCreatedDesc db.contact_messages

/-! ## Public routes -/

/-- Embeds the `blog` route: list all posts, newest first, and render
`blog.html` with them. -/
def blog (db : DB) : Response :=
  Response.render "blog.html" (list_posts_desc db) [] []

/-- Embeds the `blog_post` route: fetch by slug; redirect to the listing
when absent, render the post when present. -/
def blog_post (db : DB) (slug : String) : Response :=
  match get_post_by_slug db slug with
  | none => Response.redirect "/blog"
  | some post => Response.render "blog_post.html" [post] [] []

/-- Form fields submitted to the contact route. -/
structure ContactForm where
  name : String
  email : String
  message : String
deriving DecidableEq, Repr

/-- Observable side-effect events of a request, in program order. -/
inductive AppEvent where
  | execInsert
  | commitTx
  | mailSendAttempt
deriving DecidableEq, Repr

/-- Embeds the POST branch of the `contact` route.  `mailFails` selects
whether `mail.send` raises; an `Except.error` outcome is an exception
propagating out of the handler (Flask turns it into a generic server
error).  The returned database, the event trace and the outcome mirror the
source's unconditionally sequential insert-commit-then-send. -/
def contact_post (db : DB) (sess : Session) (form : ContactForm)
    (mailFails : Bool) : DB × List AppEvent × Except String HandlerResult :=
  let name := pyStrip form.name
  let email := pyStrip form.email
  let message := pyStrip form.message
  if name ≠ "" ∧ email ≠ "" ∧ message ≠ "" then
    let db2 := insert_contact_message db name email message
    if mailFails then
      (db2, [AppEvent.execInsert, AppEvent.commitTx, AppEvent.mailSendAttempt],
        Except.error "SMTPException")
    else
      (db2, [AppEvent.execInsert, AppEvent.commitTx, AppEvent.mailSendAttempt],
        Except.ok
          ⟨db2,
           [Flash.success "Thank you for reaching out. We will respond within 24-48 hours."],
           Response.redirect "/contact", sess⟩)
  else
    (db, [],
      Except.ok
        ⟨db, [Flash.danger "Please fill in all fields."],
         Response.render "contact.html" [] [] [], sess⟩)

/-! ## Login and logout -/

/-- Form fields submitted to the login route. -/
structure LoginForm where
  username : String
  password : String
deriving DecidableEq, Repr

/-- Embeds the POST branch of the `login` route: strip both fields, look the
user up, verify the password hash; on success establish the session and
redirect to the dashboard, otherwise flash the one generic failure message
and re-render the form. -/
def login_post (db : DB) (sess : Session) (form : LoginForm) : HandlerResult :=
  let username := pyStrip form.username
  let password := pyStrip form.password
  match User.get_by_username db username with
  | some user =>
    if check_password_hash user.password_hash password then
      ⟨db, [], Response.redirect "/admin/dashboard",
       Session.authenticated user.id⟩
    else
      ⟨db, [Flash.danger "Invalid username or password."],
       Response.render "login.html" [] [] [], sess⟩
  | none =>
    ⟨db, [Flash.danger "Invalid username or password."],
     Response.render "login.html" [] [] [], sess⟩

/-- Modelled from the spec: flask-login's `login_required` decorator with
`login_manager.login_view = "login"`; an Anonymous request is redirected to
the login entry point without running the handler body. -/
def login_required (db : DB) (sess : Session)
    (body : Nat → HandlerResult) : HandlerResult :=
  match sess with
  | Session.anonymous =>
    ⟨db, [], Response.redirect "/login", Session.anonymous⟩
  | Session.authenticated uid => body uid

/-- Embeds the `logout` route (protected): drop the session, flash, and
redirect home. -/
def logout (db : DB) (sess : Session) : HandlerResult :=
  login_required db sess (fun _ =>
    ⟨db, [Flash.success "You have been logged out."],
     Response.redirect "/", Session.anonymous⟩)

/-! ## Admin routes -/

/-- Embeds the `admin_dashboard` route (protected): both counts plus the
five most recent posts. -/
def admin_dashboard (db : DB) (sess : Session) : HandlerResult :=
  login_required db sess (fun uid =>
    ⟨db, [],
     Response.render "admin_dashboard.html" ((list_posts_desc db).take 5) []
       [db.blog_posts.length, db.contact_messages.length],
     Session.authenticated uid⟩)

/-- Form fields submitted to the new-post route. -/
structure PostForm where
  title : String
  slug : String
  body : String
  tags : String
deriving DecidableEq, Repr

/-- Embeds the POST branch of the `admin_new_post` route (protected): strip
the four fields; when title, slug and body are non-empty, insert inside
try/except — a `UniqueViolation` is rolled back and flashed specifically,
success commits and redirects; empty required fields are rejected before
touching the store. -/
def admin_new_post (db : DB) (sess : Session) (form : PostForm) : HandlerResult :=
  login_required db sess (fun uid =>
    let title := pyStrip form.title
    let slug := pyStrip form.slug
    let body := pyStrip form.body
    let tags := pyStrip form.tags
    if title ≠ "" ∧ slug ≠ "" ∧ body ≠ "" then
      match insert_blog_post db title slug body tags with
      | Except.ok db2 =>
        ⟨db2, [Flash.success "Blog post created successfully!"],
         Response.redirect "/admin/dashboard", Session.authenticated uid⟩
      | Except.error DBError.uniqueViolation =>
        ⟨db, [Flash.danger "Slug already exists."],
         Response.render "admin_new_post.html" [] [] [],
         Session.authenticated uid⟩
    else
      ⟨db, [Flash.danger "Please fill in all required fields."],
       Response.render "admin_new_post.html" [] [] [],
       Session.authenticated uid⟩)

/-- Embeds the `admin_messages` route (protected): list all contact
messages, newest first. -/
def admin_messages (db : DB) (sess : Session) : HandlerResult :=
  login_required db sess (fun uid =>
    ⟨db, [], Response.render "admin_messages.html" [] (list_messages_desc db) [],
     Session.authenticated uid⟩)

/-- Embeds the `admin_delete_post` route (protected): delete by id, flash
success unconditionally, redirect to the dashboard. -/
def admin_delete_post (db : DB) (sess : Session) (post_id : Nat) : HandlerResult :=
  login_required db sess (fun uid =>
    ⟨delete_blog_post db post_id, [Flash.success "Blog post deleted."],
     Response.redirect "/admin/dashboard", Session.authenticated uid⟩)

/-! ## Connection lifecycle traces

Each handler's use of `get_db_connection()` / `cur.execute(...)` /
`conn.close()` is modelled as a program in a small exception monad that
logs connection events; a raised query error aborts the rest of the
program exactly as a Python exception skips the statements after it,
while `try/except/finally` is modelled by explicit combinators. -/

/-- Connection-level events logged by the trace programs. -/
inductive ConnEvent where
  | openConn
  | closeConn
  | execStmt
  | commitTx
  | rollbackTx
deriving DecidableEq, Repr

/-- Outcome of a trace program: the value or the propagating exception,
together with the events logged up to that point. -/
inductive TResult (α : Type) where
  | ok (a : α) (log : List ConnEvent)
  | err (e : String) (log : List ConnEvent)
deriving DecidableEq, Repr

/-- Trace program: transforms the event log, may raise. -/
def Tr (α : Type) : Type := List ConnEvent → TResult α

/-- Return without logging. -/
def Tr.pur (a : α) : Tr α := fun log => TResult.ok a log

/-- Sequencing: an exception in the first program skips the second. -/
def Tr.bind (x : Tr α) (f : α → Tr β) : Tr β := fun log =>
  match x log with
  | TResult.ok a l => f a l
  | TResult.err e l => TResult.err e l

instance : Monad Tr where
  pure := Tr.pur
  bind := Tr.bind

/-- Log one event. -/
def Tr.emit (e : ConnEvent) : Tr Unit := fun log => TResult.ok () (log ++ [e])

/-- Raise an exception. -/
def Tr.raise (e : String) : Tr Unit := fun log => TResult.err e log

/-- Run a trace program on the empty log. -/
def Tr.run (x : Tr α) : TResult α := x []

/-- Event log of a result. -/
def TResult.log : TResult α → List ConnEvent
  | TResult.ok _ l => l
  | TResult.err _ l => l

/-- Python `try: body finally: fin` — `fin` runs on both exits, and an
exception from `body` resumes propagating after `fin`. -/
def tryFinallyTr (body : Tr α) (fin : Tr Unit) : Tr α := fun log =>
  match body log with
  | TResult.ok a l =>
    match fin l with
    | TResult.ok _ l2 => TResult.ok a l2
    | TResult.err e2 l2 => TResult.err e2 l2
  | TResult.err e l =>
    match fin l with
    | TResult.ok _ l2 => TResult.err e l2
    | TResult.err e2 l2 => TResult.err e2 l2

/-- Python `try: body except UniqueViolation: handler` — only the
unique-violation exception is caught. -/
def tryCatchUVTr (body : Tr α) (handler : Tr α) : Tr α := fun log =>
  match body log with
  | TResult.ok a l => TResult.ok a l
  | TResult.err e l => if e = "UniqueViolation" then handler l else TResult.err e l

/-- Model of `get_db_connection()`. -/
def getConnTr : Tr Unit := Tr.emit ConnEvent.openConn

/-- Model of `conn.close()`. -/
def closeConnTr : Tr Unit := Tr.emit ConnEvent.closeConn

/-- Model of `cur.execute(...)` for a statement that either succeeds or
raises a query failure. -/
def execTr (fails : Bool) : Tr Unit :=
  Tr.bind (Tr.emit ConnEvent.execStmt)
    (fun _ => if fails then Tr.raise "QueryError" else Tr.pur ())

/-- Possible outcomes of the INSERT in `admin_new_post`. -/
inductive ExecOutcome where
  | ok
  | uniqueViolation
  | queryFailure
deriving DecidableEq, Repr

/-- Model of the INSERT statement of `admin_new_post`. -/
def execInsertTr : ExecOutcome → Tr Unit
  | ExecOutcome.ok => Tr.emit ConnEvent.execStmt
  | ExecOutcome.uniqueViolation =>
    Tr.bind (Tr.emit ConnEvent.execStmt) (fun _ => Tr.raise "UniqueViolation")
  | ExecOutcome.queryFailure =>
    Tr.bind (Tr.emit ConnEvent.execStmt) (fun _ => Tr.raise "QueryError")

/-- Connection trace of the `blog` route: open, execute, fetch, close — no
try/finally around the statement. -/
def blogConnTrace (execFails : Bool) : Tr Unit := do
  getConnTr
  execTr execFails
  closeConnTr

/-- Connection trace of the `blog_post` route (read by unique key). -/
def blogPostConnTrace (execFails : Bool) : Tr Unit := do
  getConnTr
  execTr execFails
  closeConnTr

/-- Connection trace of `User.get_by_username` (read by unique key). -/
def userGetByUsernameConnTrace (execFails : Bool) : Tr Unit := do
  getConnTr
  execTr execFails
  closeConnTr

/-- Connection trace of `User.get_by_id` (read by id). -/
def userGetByIdConnTrace (execFails : Bool) : Tr Unit := do
  getConnTr
  execTr execFails
  closeConnTr

/-- Connection trace of `admin_dashboard` (two counts and one list). -/
def adminDashboardConnTrace (f1 f2 f3 : Bool) : Tr Unit := do
  getConnTr
  execTr f1
  execTr f2
  execTr f3
  closeConnTr

/-- Connection trace of `admin_messages` (list ordered). -/
def adminMessagesConnTrace (execFails : Bool) : Tr Unit := do
  getConnTr
  execTr execFails
  closeConnTr

/-- Connection trace of `admin_delete_post` (delete, commit, close). -/
def adminDeleteConnTrace (execFails : Bool) : Tr Unit := do
  getConnTr
  execTr execFails
  Tr.emit ConnEvent.commitTx
  closeConnTr

/-- Connection trace of the insert in the `contact` route. -/
def contactInsertConnTrace (execFails : Bool) : Tr Unit := do
  getConnTr
  execTr execFails
  Tr.emit ConnEvent.commitTx
  closeConnTr

/-- Connection trace of the create in `admin_new_post`: the only operation
whose close sits in a `finally`, with `except UniqueViolation` rolling
back. -/
def adminNewPostConnTrace (o : ExecOutcome) : Tr Unit := do
  getConnTr
  tryFinallyTr
    (tryCatchUVTr
      (do
        execInsertTr o
        Tr.emit ConnEvent.commitTx)
      (Tr.emit ConnEvent.rollbackTx))
    closeConnTr

/-- A run releases its connection when it logs as many closes as opens. -/
def releasesConn (r : TResult Unit) : Bool :=
  r.log.count ConnEvent.openConn == r.log.count ConnEvent.closeConn

/-! ## Helper lemmas -/

theorem generate_password_hash_inj {p s : String}
    (h : generate_password_hash p = generate_password_hash s) : p = s := by
  have h2 : hashTagChars ++ p.data = hashTagChars ++ s.data := congrArg String.data h
  have h3 := List.append_cancel_left h2
  cases p
  cases s
  exact congrArg String.mk h3

theorem generate_password_hash_ne_self (p : String) :
    generate_password_hash p ≠ p := by
  intro h
  have h2 : hashTagChars ++ p.data = p.data := congrArg String.data h
  have h3 : hashTagChars = [] := List.append_left_eq_self.mp h2
  exact absurd h3 (by decide)

/-! ## Theorems for the specification's claims -/

/-- C1: a login submission with a nonexistent username and one with an
existing username but a wrong password both leave the session exactly as it
was (never Authenticated from Anonymous), flash the same generic
invalid-credentials message, and produce identical handler results, so the
two failure runs are indistinguishable to the client. -/
theorem login_failures_indistinguishable (db : DB) (sess : Session)
    (f g : LoginForm) (user : UserRow)
    (hf : User.get_by_username db (pyStrip f.username) = none)
    (hg : User.get_by_username db (pyStrip g.username) = some user)
    (hp : check_password_hash user.password_hash (pyStrip g.password) = false) :
    login_post db sess f = login_post db sess g ∧
    (login_post db sess f).session = sess ∧
    (login_post db sess g).session = sess ∧
    (login_post db sess f).flashes =
      [Flash.danger "Invalid username or password."] := by
  refine ⟨?_, ?_, ?_, ?_⟩ <;> simp [login_post, hf, hg, hp]

/-- Sample store used to witness the claims about login. -/
def dbW : DB :=
  ⟨[⟨1, "admin", generate_password_hash "secret", 0⟩], [], [], 2, 5⟩

theorem login_failures_indistinguishable_witness :
    login_post dbW Session.anonymous ⟨"nobody", "secret"⟩ =
      login_post dbW Session.anonymous ⟨"admin", "wrong"⟩ ∧
    (login_post dbW Session.anonymous ⟨"nobody", "secret"⟩).session =
      Session.anonymous ∧
    (login_post dbW Session.anonymous ⟨"admin", "wrong"⟩).session =
      Session.anonymous ∧
    (login_post dbW Session.anonymous ⟨"nobody", "secret"⟩).flashes =
      [Flash.danger "Invalid username or password."] :=
  login_failures_indistinguishable dbW Session.anonymous
    ⟨"nobody", "secret"⟩ ⟨"admin", "wrong"⟩
    ⟨1, "admin", generate_password_hash "secret", 0⟩
    (by decide) (by decide) (by decide)

/-- C2: every protected route — dashboard, post creation, post deletion,
message listing, logout — run in Anonymous state leaves the store untouched
and answers a bare redirect to the login entry point, so the handler body
never runs and no protected data appears in the response. -/
theorem protected_routes_redirect_when_anonymous (db : DB) (form : PostForm)
    (pid : Nat) :
    admin_dashboard db Session.anonymous =
      ⟨db, [], Response.redirect "/login", Session.anonymous⟩ ∧
    admin_new_post db Session.anonymous form =
      ⟨db, [], Response.redirect "/login", Session.anonymous⟩ ∧
    admin_delete_post db Session.anonymous pid =
      ⟨db, [], Response.redirect "/login", Session.anonymous⟩ ∧
    admin_messages db Session.anonymous =
      ⟨db, [], Response.redirect "/login", Session.anonymous⟩ ∧
    logout db Session.anonymous =
      ⟨db, [], Response.redirect "/login", Session.anonymous⟩ :=
  ⟨rfl, rfl, rfl, rfl, rfl⟩

/-- C3: `check_password_hash` against the hash generated from plaintext `p`
accepts exactly `p`: it accepts `p`, rejects every other string — the empty
string included — and rejects the hash value itself; its result is a
boolean. -/
theorem verifyPassword_exact_match (p : String) :
    (∀ s, check_password_hash (generate_password_hash p) s = true ↔ s = p) ∧
    (∀ s, s ≠ p → check_password_hash (generate_password_hash p) s = false) ∧
    check_password_hash (generate_password_hash p) p = true ∧
    check_password_hash (generate_password_hash p) (generate_password_hash p) =
      false := by
  have key : ∀ s,
      check_password_hash (generate_password_hash p) s = true ↔ s = p := by
    intro s
    unfold check_password_hash
    rw [beq_iff_eq]
    constructor
    · intro h
      exact generate_password_hash_inj h.symm
    · intro h
      rw [h]
  refine ⟨key, ?_, (key p).mpr rfl, ?_⟩
  · intro s hs
    cases hcb : check_password_hash (generate_password_hash p) s
    · rfl
    · exact absurd ((key s).mp hcb) hs
  · cases hcb : check_password_hash (generate_password_hash p)
        (generate_password_hash p)
    · rfl
    · exact absurd ((key _).mp hcb) (generate_password_hash_ne_self p)

theorem verifyPassword_exact_match_witness :
    check_password_hash (generate_password_hash "secret") "wrong" = false ∧
    check_password_hash (generate_password_hash "secret") "" = false ∧
    check_password_hash (generate_password_hash "secret") "secret" = true ∧
    check_password_hash (generate_password_hash "secret")
      (generate_password_hash "secret") = false :=
  ⟨(verifyPassword_exact_match "secret").2.1 "wrong" (by decide),
   (verifyPassword_exact_match "secret").2.1 "" (by decide),
   (verifyPassword_exact_match "secret").2.2.1,
   (verifyPassword_exact_match "secret").2.2.2⟩

/-- C7: the blog listing renders every stored post (a permutation of the
table) in non-increasing creation-time order. -/
theorem blog_lists_all_posts_newest_first (db : DB) :
    ∃ ps, blog db = Response.render "blog.html" ps [] [] ∧
      ps.Perm db.blog_posts ∧
      ps.Pairwise (fun a b => b.created_at ≤ a.created_at) := by
  refine ⟨list_posts_desc db, rfl,
    List.perm_insertionSort createdDesc db.blog_posts, ?_⟩
  exact List.sorted_insertionSort createdDesc db.blog_posts

/-- C8 counterexample: the claim says every persistence operation releases
its connection on every exit path including query failure, but the blog
listing's run with a failing statement logs an open with no close. -/
theorem conn_leak_on_query_failure :
    releasesConn (Tr.run (blogConnTrace true)) = false := by rfl

/-- C8 amended: every modelled persistence operation releases its
connection on the success path, and the post-creation operation — the only
one whose close sits in a `finally` — also releases it on the
unique-violation and query-failure paths. -/
theorem conn_release_success_paths (o : ExecOutcome) :
    releasesConn (Tr.run (blogConnTrace false)) = true ∧
    releasesConn (Tr.run (blogPostConnTrace false)) = true ∧
    releasesConn (Tr.run (userGetByUsernameConnTrace false)) = true ∧
    releasesConn (Tr.run (userGetByIdConnTrace false)) = true ∧
    releasesConn (Tr.run (adminDashboardConnTrace false false false)) = true ∧
    releasesConn (Tr.run (adminMessagesConnTrace false)) = true ∧
    releasesConn (Tr.run (adminDeleteConnTrace false)) = true ∧
    releasesConn (Tr.run (contactInsertConnTrace false)) = true ∧
    releasesConn (Tr.run (adminNewPostConnTrace o)) = true := by
  refine ⟨rfl, rfl, rfl, rfl, rfl, rfl, rfl, rfl, ?_⟩
  cases o <;> rfl

/-- C4: creating a post whose slug already exists fails with the typed
unique-violation error, is flashed with the slug-specific message (not the
generic one), and leaves the store unchanged with the existing post still
retrievable by that slug. -/
theorem duplicate_slug_conflict_preserves_store (db : DB) (uid : Nat)
    (form : PostForm) (p0 : BlogPostRow)
    (ht : pyStrip form.title ≠ "") (hs : pyStrip form.slug ≠ "")
    (hb : pyStrip form.body ≠ "")
    (hmem : p0 ∈ db.blog_posts) (hslug : p0.slug = pyStrip form.slug) :
    insert_blog_post db (pyStrip form.title) (pyStrip form.slug)
        (pyStrip form.body) (pyStrip form.tags) =
      Except.error DBError.uniqueViolation ∧
    (admin_new_post db (Session.authenticated uid) form).db = db ∧
    (admin_new_post db (Session.authenticated uid) form).flashes =
      [Flash.danger "Slug already exists."] ∧
    get_post_by_slug (admin_new_post db (Session.authenticated uid) form).db
        (pyStrip form.slug) = get_post_by_slug db (pyStrip form.slug) ∧
    (get_post_by_slug db (pyStrip form.slug)).isSome = true := by
  have hany : db.blog_posts.any (fun p => p.slug == pyStrip form.slug) = true :=
    List.any_eq_true.mpr ⟨p0, hmem, by simp [hslug]⟩
  have hins : insert_blog_post db (pyStrip form.title) (pyStrip form.slug)
      (pyStrip form.body) (pyStrip form.tags) =
      Except.error DBError.uniqueViolation := by
    simp [insert_blog_post, hany]
  have hrun : admin_new_post db (Session.authenticated uid) form =
      ⟨db, [Flash.danger "Slug already exists."],
       Response.render "admin_new_post.html" [] [] [],
       Session.authenticated uid⟩ := by
    simp only [admin_new_post, login_required]
    rw [if_pos ⟨ht, hs, hb⟩, hins]
  refine ⟨hins, ?_, ?_, ?_, ?_⟩
  · rw [hrun]
  · rw [hrun]
  · rw [hrun]
  · exact List.find?_isSome.mpr ⟨p0, hmem, by simp [hslug]⟩

/-- Sample store used to witness the claims about blog posts. -/
def dbP : DB :=
  ⟨[], [⟨7, "First", "hello", "Body one", "tag", 3, 3⟩], [], 8, 9⟩

theorem duplicate_slug_conflict_witness :
    insert_blog_post dbP (pyStrip "Second") (pyStrip "hello")
        (pyStrip "Body two") (pyStrip "") =
      Except.error DBError.uniqueViolation ∧
    (admin_new_post dbP (Session.authenticated 1)
        ⟨"Second", "hello", "Body two", ""⟩).db = dbP ∧
    (admin_new_post dbP (Session.authenticated 1)
        ⟨"Second", "hello", "Body two", ""⟩).flashes =
      [Flash.danger "Slug already exists."] ∧
    get_post_by_slug (admin_new_post dbP (Session.authenticated 1)
        ⟨"Second", "hello", "Body two", ""⟩).db (pyStrip "hello") =
      get_post_by_slug dbP (pyStrip "hello") ∧
    (get_post_by_slug dbP (pyStrip "hello")).isSome = true :=
  duplicate_slug_conflict_preserves_store dbP 1
    ⟨"Second", "hello", "Body two", ""⟩
    ⟨7, "First", "hello", "Body one", "tag", 3, 3⟩
    (by decide) (by decide) (by decide) (by decide) (by decide)

/-- C5: creating a post under a fresh slug and then reading that slug back
gives a post whose title, body and tags are exactly the created values, and
the public post route renders it. -/
theorem create_then_read_roundtrip (db : DB) (uid : Nat) (form : PostForm)
    (ht : pyStrip form.title ≠ "") (hs : pyStrip form.slug ≠ "")
    (hb : pyStrip form.body ≠ "")
    (hfresh : ∀ p ∈ db.blog_posts, p.slug ≠ pyStrip form.slug) :
    ∃ post,
      get_post_by_slug (admin_new_post db (Session.authenticated uid) form).db
          (pyStrip form.slug) = some post ∧
      blog_post (admin_new_post db (Session.authenticated uid) form).db
          (pyStrip form.slug) = Response.render "blog_post.html" [post] [] [] ∧
      post.title = pyStrip form.title ∧
      post.body = pyStrip form.body ∧
      post.tags = pyStrip form.tags := by
  have hany : db.blog_posts.any (fun p => p.slug == pyStrip form.slug) = false :=
    List.any_eq_false.mpr (fun p hp => by simpa using hfresh p hp)
  have hins : insert_blog_post db (pyStrip form.title) (pyStrip form.slug)
      (pyStrip form.body) (pyStrip form.tags) =
      Except.ok
        { db with
          blog_posts := db.blog_posts ++
            [⟨db.next_id, pyStrip form.title, pyStrip form.slug,
              pyStrip form.body, pyStrip form.tags, db.now, db.now⟩],
          next_id := db.next_id + 1 } := by
    simp [insert_blog_post, hany]
  have hdb : (admin_new_post db (Session.authenticated uid) form).db =
      { db with
        blog_posts := db.blog_posts ++
          [⟨db.next_id, pyStrip form.title, pyStrip form.slug,
            pyStrip form.body, pyStrip form.tags, db.now, db.now⟩],
        next_id := db.next_id + 1 } := by
    simp only [admin_new_post, login_required]
    rw [if_pos ⟨ht, hs, hb⟩, hins]
  have hfind : get_post_by_slug
      (admin_new_post db (Session.authenticated uid) form).db
      (pyStrip form.slug) =
      some ⟨db.next_id, pyStrip form.title, pyStrip form.slug,
        pyStrip form.body, pyStrip form.tags, db.now, db.now⟩ := by
    rw [hdb]
    unfold get_post_by_slug
    rw [List.find?_append,
      List.find?_eq_none.mpr (fun p hp => by simpa using hfresh p hp)]
    simp [List.find?]
  exact ⟨_, hfind, by simp [blog_post, hfind], rfl, rfl, rfl⟩

theorem create_then_read_roundtrip_witness :
    ∃ post,
      get_post_by_slug (admin_new_post dbP (Session.authenticated 1)
          ⟨"Second", "world", "Body two", "t2"⟩).db (pyStrip "world") =
        some post ∧
      blog_post (admin_new_post dbP (Session.authenticated 1)
          ⟨"Second", "world", "Body two", "t2"⟩).db (pyStrip "world") =
        Response.render "blog_post.html" [post] [] [] ∧
      post.title = pyStrip "Second" ∧
      post.body = pyStrip "Body two" ∧
      post.tags = pyStrip "t2" :=
  create_then_read_roundtrip dbP 1 ⟨"Second", "world", "Body two", "t2"⟩
    (by decide) (by decide) (by decide) (by decide)

/-- C6: deletion is idempotent — deleting twice equals deleting once, the
post id is absent after the first deletion, deleting an id that is not
present changes nothing and is not an error, and the handler reports
success unconditionally. -/
theorem delete_post_idempotent (db : DB) (uid pid : Nat) :
    delete_blog_post (delete_blog_post db pid) pid = delete_blog_post db pid ∧
    (∀ p ∈ (delete_blog_post db pid).blog_posts, p.id ≠ pid) ∧
    ((∀ p ∈ db.blog_posts, p.id ≠ pid) → delete_blog_post db pid = db) ∧
    (admin_delete_post db (Session.authenticated uid) pid).flashes =
      [Flash.success "Blog post deleted."] := by
  refine ⟨?_, ?_, ?_, rfl⟩
  · have hff : (db.blog_posts.filter (fun p => p.id != pid)).filter
        (fun p => p.id != pid) = db.blog_posts.filter (fun p => p.id != pid) :=
      List.filter_eq_self.mpr (fun a ha => (List.mem_filter.mp ha).2)
    simp [delete_blog_post, hff]
  · intro p hp
    have := (List.mem_filter.mp hp).2
    simpa using this
  · intro h
    have : db.blog_posts.filter (fun p => p.id != pid) = db.blog_posts :=
      List.filter_eq_self.mpr (fun a ha => by simpa using h a ha)
    simp [delete_blog_post, this]

theorem delete_post_idempotent_witness :
    delete_blog_post (delete_blog_post dbP 7) 7 = delete_blog_post dbP 7 ∧
    delete_blog_post dbP 99 = dbP :=
  ⟨(delete_post_idempotent dbP 1 7).1,
   (delete_post_idempotent dbP 1 99).2.2.1 (by decide)⟩

/-- C9 amended: on a valid contact submission the insert and commit precede
the mail-send attempt on every path, a failing dispatch does not roll the
stored message back, and a failing dispatch propagates as an exception — a
user-visible outcome different from the success redirect. -/
theorem contact_commit_precedes_mail (db : DB) (sess : Session)
    (form : ContactForm) (mailFails : Bool)
    (hn : pyStrip form.name ≠ "") (he : pyStrip form.email ≠ "")
    (hm : pyStrip form.message ≠ "") :
    (contact_post db sess form mailFails).2.1 =
      [AppEvent.execInsert, AppEvent.commitTx, AppEvent.mailSendAttempt] ∧
    (contact_post db sess form true).1 =
      insert_contact_message db (pyStrip form.name) (pyStrip form.email)
        (pyStrip form.message) ∧
    (contact_post db sess form true).2.2 = Except.error "SMTPException" := by
  refine ⟨?_, ?_, ?_⟩
  · simp only [contact_post]
    rw [if_pos ⟨hn, he, hm⟩]
    cases mailFails <;> rfl
  · simp only [contact_post]
    rw [if_pos ⟨hn, he, hm⟩]
    simp
  · simp only [contact_post]
    rw [if_pos ⟨hn, he, hm⟩]
    simp

/-- Sample contact submission used for the contact claims. -/
def contactF : ContactForm := ⟨"Ada", "ada@example.com", "Hello"⟩

theorem contact_commit_precedes_mail_witness :
    (contact_post dbP Session.anonymous contactF true).2.1 =
      [AppEvent.execInsert, AppEvent.commitTx, AppEvent.mailSendAttempt] ∧
    (contact_post dbP Session.anonymous contactF true).1 =
      insert_contact_message dbP (pyStrip "Ada") (pyStrip "ada@example.com")
        (pyStrip "Hello") ∧
    (contact_post dbP Session.anonymous contactF true).2.2 =
      Except.error "SMTPException" :=
  contact_commit_precedes_mail dbP Session.anonymous contactF true
    (by decide) (by decide) (by decide)

instance : DecidableEq (Except String HandlerResult) := fun a b =>
  match a, b with
  | Except.error e, Except.error f =>
    if h : e = f then Decidable.isTrue (by rw [h])
    else Decidable.isFalse (by intro hh; cases hh; exact h rfl)
  | Except.error _, Except.ok _ => Decidable.isFalse (by intro hh; cases hh)
  | Except.ok _, Except.error _ => Decidable.isFalse (by intro hh; cases hh)
  | Except.ok a, Except.ok b =>
    if h : a = b then Decidable.isTrue (by rw [h])
    else Decidable.isFalse (by intro hh; cases hh; exact h rfl)

/-- C9 counterexample: for one and the same valid submission, the outcome
when the mail dispatch fails differs from the outcome when it succeeds, so
the dispatch failure is distinguishable from success in the user-visible
response. -/
theorem contact_mail_failure_visible :
    (contact_post dbP Session.anonymous contactF true).2.2 ≠
      (contact_post dbP Session.anonymous contactF false).2.2 := by decide

/-- C10: form handlers strip surrounding whitespace before validation,
lookup and storage — logins whose fields differ only up to stripping behave
identically, whitespace-only required fields of the contact and new-post
forms are rejected with the store unchanged, and an account whose stored
hash was generated from a plaintext with surrounding whitespace can never
authenticate through the login route, that exact plaintext included. -/
theorem form_fields_stripped (db : DB) (sess : Session) :
    (∀ f g : LoginForm, pyStrip g.username = pyStrip f.username →
      pyStrip g.password = pyStrip f.password →
      login_post db sess g = login_post db sess f) ∧
    (∀ (form : ContactForm) (mailFails : Bool),
      pyStrip form.name = "" ∨ pyStrip form.email = "" ∨
        pyStrip form.message = "" →
      contact_post db sess form mailFails =
        (db, [],
          Except.ok ⟨db, [Flash.danger "Please fill in all fields."],
            Response.render "contact.html" [] [] [], sess⟩)) ∧
    (∀ (uid : Nat) (form : PostForm),
      pyStrip form.title = "" ∨ pyStrip form.slug = "" ∨
        pyStrip form.body = "" →
      admin_new_post db (Session.authenticated uid) form =
        ⟨db, [Flash.danger "Please fill in all required fields."],
          Response.render "admin_new_post.html" [] [] [],
          Session.authenticated uid⟩) ∧
    (∀ (form : LoginForm) (user : UserRow) (pw : String),
      User.get_by_username db (pyStrip form.username) = some user →
      user.password_hash = generate_password_hash pw →
      pyStrip pw ≠ pw →
      (login_post db sess form).session = sess ∧
      (login_post db sess form).flashes =
        [Flash.danger "Invalid username or password."]) := by
  refine ⟨?_, ?_, ?_, ?_⟩
  · intro f g hu hp
    simp [login_post, hu, hp]
  · intro form mailFails h
    have hng : ¬(pyStrip form.name ≠ "" ∧ pyStrip form.email ≠ "" ∧
        pyStrip form.message ≠ "") := by
      rcases h with h | h | h <;> simp [h]
    simp only [contact_post]
    rw [if_neg hng]
  · intro uid form h
    have hng : ¬(pyStrip form.title ≠ "" ∧ pyStrip form.slug ≠ "" ∧
        pyStrip form.body ≠ "") := by
      rcases h with h | h | h <;> simp [h]
    simp only [admin_new_post, login_required]
    rw [if_neg hng]
  · intro form user pw hu hhash hws
    have hchk : check_password_hash user.password_hash
        (pyStrip form.password) = false := by
      rw [hhash]
      unfold check_password_hash
      rw [beq_eq_false_iff_ne]
      intro heq
      have hpw : pw = pyStrip form.password := generate_password_hash_inj heq
      have : pyStrip pw = pw := by
        rw [hpw]
        exact pyStrip_idem form.password
      exact hws this
    constructor <;> simp [login_post, hu, hchk]

/-- Second sample store: a user whose hash was generated from a plaintext
with surrounding whitespace. -/
def dbW2 : DB :=
  ⟨[⟨2, "bob", generate_password_hash " pw ", 0⟩], [], [], 3, 0⟩

theorem form_fields_stripped_witness :
    login_post dbW Session.anonymous ⟨" admin ", " secret "⟩ =
      login_post dbW Session.anonymous ⟨"admin", "secret"⟩ ∧
    contact_post dbW Session.anonymous ⟨"   ", "ada@example.com", "Hello"⟩
        false =
      (dbW, [],
        Except.ok ⟨dbW, [Flash.danger "Please fill in all fields."],
          Response.render "contact.html" [] [] [], Session.anonymous⟩) ∧
    admin_new_post dbW (Session.authenticated 1) ⟨" ", "slug-a", "Body", ""⟩ =
      ⟨dbW, [Flash.danger "Please fill in all required fields."],
        Response.render "admin_new_post.html" [] [] [],
        Session.authenticated 1⟩ ∧
    (login_post dbW2 Session.anonymous ⟨"bob", " pw "⟩).session =
      Session.anonymous :=
  ⟨(form_fields_stripped dbW Session.anonymous).1
      ⟨"admin", "secret"⟩ ⟨" admin ", " secret "⟩ (by decide) (by decide),
   (form_fields_stripped dbW Session.anonymous).2.1
      ⟨"   ", "ada@example.com", "Hello"⟩ false (Or.inl (by decide)),
   (form_fields_stripped dbW Session.anonymous).2.2.1 1
      ⟨" ", "slug-a", "Body", ""⟩ (Or.inl (by decide)),
   ((form_fields_stripped dbW2 Session.anonymous).2.2.2
      ⟨"bob", " pw "⟩ ⟨2, "bob", generate_password_hash " pw ", 0⟩ " pw "
      (by decide) rfl (by decide)).1⟩

end App
